import Mathlib

/-!
Shallow embedding of the order/inventory core of the repository
(`order_service.py`, `order_repository.py`, `product_repository.py`,
`inventory_service.py`, `notification_service.py`, `validators.py`,
`models.py`, `formatters.py`, `user_repository.py`).

Modelling conventions:
* Python dicts standing in for records become Lean structures; a field read
  with `dict.get(key, default)` becomes an `Option` field read with `getD`.
* The process-global tables (`_products_db`, `_orders_db`, `_users_db`,
  `_user_order_index`, `_queue`) become fields of an explicit `DB` state
  threaded through every operation; in-place mutation becomes functional
  update of that state.
* Python `float` money values are modelled as exact rationals `ℚ`;
  quantities and stock counts (Python `int`) are `ℤ`.
* `uuid.uuid4()` inside `generate_id` is modelled by a fresh-name counter
  held in the state (`next_uid`); only freshness/shape of ids matters here.
* Python's stable `list.sort(key=priority)` is modelled by a stable
  insertion sort (any two stable sorts by the same key agree pointwise).
-/

namespace Shop

/-- A row of `_products_db`; optional fields mirror `product.get(key, default)`
reads in `product_repository.py` and `inventory_service.py`. -/
structure Product where
  id : String
  sku : Option String
  name : Option String
  price : Option ℚ
  stock : Option ℤ
  active : Option Bool
deriving Repr, DecidableEq

/-- A row of `_users_db` (`user_repository.py`); `active` is read with
`user.get("active")`, so it is optional and a missing value is falsy. -/
structure User where
  id : String
  name : String
  email : String
  role : String
  active : Option Bool
deriving Repr, DecidableEq

/-- An order line as built by `create_order_item` in `models.py`. -/
structure OrderItem where
  product_id : String
  quantity : ℤ
  price : ℚ
  subtotal : ℚ
deriving Repr, DecidableEq

/-- A row of `_orders_db` as built by `create_order_model` in `models.py`. -/
structure Order where
  id : String
  user_id : String
  items : List OrderItem
  total : ℚ
  currency : String
  status : String
deriving Repr, DecidableEq

/-- A raw request item passed to `create_order`; every field is read with
`item.get(...)` and may be absent. -/
structure RawItem where
  product_id : Option String
  quantity : Option ℤ
  price : Option ℚ
deriving Repr, DecidableEq

/-- A record built by `create_notification_model` in `models.py`. -/
structure Notification where
  id : String
  user_id : String
  channel : String
  subject : String
  body : String
  read : Bool
deriving Repr, DecidableEq

/-- An entry of the notification `_queue` (`queue_notification` in
`notification_service.py`). -/
structure QueueEntry where
  id : String
  notif : Notification
  priority : ℤ
  status : String
deriving Repr, DecidableEq

/-- The process-global mutable state of the program: the in-memory tables of
`product_repository.py`, `order_repository.py`, `user_repository.py` and the
notification queue of `notification_service.py`, plus the fresh-id counter
modelling `uuid.uuid4()`. -/
structure DB where
  products : String → Option Product
  orders : String → Option Order
  users : String → Option User
  user_order_index : String → List String
  queue : List QueueEntry
  next_uid : ℕ

/-- The two shapes a service endpoint returns: `format_error(code, message)`
(the Python dict `{"error": {"code", "message"}}`) or
`format_response(data)` (the dict `{"status": "success", "data": ..., "meta": ...}`,
whose `status`/`meta` fields are constants carrying no information). -/
inductive ApiResult (α : Type) where
  | error (code : String) (message : String)
  | ok (data : α)
deriving Repr, DecidableEq

/-- Whether an `ApiResult` is the `format_error` shape. -/
def ApiResult.is_err {α : Type} : ApiResult α → Bool
  | .error _ _ => true
  | .ok _ => false

/-- `utils.generate_id`: uuid modelled by the state's fresh counter. -/
def generate_id (db : DB) (pre : String) : String × DB :=
  let uid := toString db.next_uid
  let s := if pre ≠ "" then pre ++ "_" ++ uid else uid
  (s, { db with next_uid := db.next_uid + 1 })

/-- Point update of the product table (`_products_db[product_id] = ...`). -/
def set_product (db : DB) (product_id : String) (p : Product) : DB :=
  { db with products := fun k => if k = product_id then some p else db.products k }

/-- Point update of the order table (`_orders_db[order_id] = ...`). -/
def set_order (db : DB) (order_id : String) (o : Order) : DB :=
  { db with orders := fun k => if k = order_id then some o else db.orders k }

/-- `utils.remove_html_tags`: drop characters between `<` and `>`. -/
def remove_html_tags (value : String) : String :=
  let step := fun (acc : String × Bool) (c : Char) =>
    if c = '<' then (acc.1, true)
    else if c = '>' then (acc.1, false)
    else if acc.2 then acc
    else (acc.1.push c, acc.2)
  (value.toList.foldl step ("", false)).1

/-- `utils.sanitize_string`: strip whitespace, then remove html tags. -/
def sanitize_string (value : String) : String :=
  remove_html_tags value.trim

/-- `validators.get_valid_currencies`. -/
def get_valid_currencies : List String :=
  ["USD", "EUR", "GBP", "JPY", "PLN", "CAD"]

/-- Python's `str.upper`, written structurally over the character list
(pointwise equal to `String.toUpper`, whose `mapAux` recursion does not
reduce in the kernel). -/
def str_upper (s : String) : String :=
  String.mk (s.data.map Char.toUpper)

/-- `validators.validate_currency`. -/
def validate_currency (currency : String) : Bool :=
  get_valid_currencies.contains (str_upper currency)

/-- `validators.validate_decimal_places`: the Python code renders the float to
ten decimal places, strips trailing zeros and counts the remaining digits;
on a value modelled as an exact rational this holds iff `value * 10^max_places`
is an integer. -/
def validate_decimal_places (value : ℚ) (max_places : ℕ) : Bool :=
  (value * 10 ^ max_places).den == 1

/-- `validators.validate_amount` with its default bounds
`min_val = 0.01`, `max_val = 999999.99` (all call sites use the defaults). -/
def validate_amount (amount : ℚ) : Bool :=
  if amount < 1 / 100 || amount > 99999999 / 100 then false
  else validate_decimal_places amount 2

/-- `validators.validate_quantity` (the `isinstance(quantity, int)` guard is
carried by the type `ℤ`). -/
def validate_quantity (quantity : ℤ) : Bool :=
  decide (0 < quantity) && decide (quantity ≤ 10000)

/-- `formatters.truncate_string`. -/
def truncate_string (value : String) (max_len : ℕ) : String :=
  if value.length ≤ max_len then value
  else (value.take (max_len - 3)) ++ "..."

/-- `formatters.format_error`. -/
def format_error {α : Type} (code message : String) : ApiResult α :=
  ApiResult.error code (truncate_string message 500)

/-- `formatters.format_response` (the constant `status`/`meta` wrapper fields
carry no information and are dropped). -/
def format_response {α : Type} (data : α) : ApiResult α :=
  ApiResult.ok data

/-- `models.create_order_item`: note the `.get` defaults (`quantity` 1,
`price` 0, `product_id` empty string). -/
def create_order_item (item : RawItem) : OrderItem :=
  let qty := item.quantity.getD 1
  let price := item.price.getD 0
  { product_id := item.product_id.getD ""
    quantity := qty
    price := price
    subtotal := qty * price }

/-- `models.create_order_model`: items, total as sum of subtotals, a fresh
`ord_`-prefixed id, and initial status `created`. -/
def create_order_model (db : DB) (user_id : String) (items : List RawItem)
    (currency : String) : Order × DB :=
  let order_items := items.map create_order_item
  let total := (order_items.map OrderItem.subtotal).sum
  let gen := generate_id db "ord"
  ({ id := gen.1, user_id := user_id, items := order_items, total := total,
     currency := currency, status := "created" }, gen.2)

/-- `models.create_notification_model`. -/
def create_notification_model (db : DB) (user_id channel subject body : String) :
    Notification × DB :=
  let gen := generate_id db "ntf"
  ({ id := gen.1, user_id := user_id, channel := channel,
     subject := sanitize_string subject, body := sanitize_string body,
     read := false }, gen.2)

/-- `user_repository.find_user_by_id`. -/
def find_user_by_id (db : DB) (user_id : String) : Option User :=
  db.users user_id

/-- `product_repository.find_product_by_id`. -/
def find_product_by_id (db : DB) (product_id : String) : Option Product :=
  db.products product_id

/-- `product_repository.update_stock`: the only stock mutator. Fails (returns
`none`, state unchanged) when the product is missing or the adjusted stock
would be negative; otherwise commits and returns the new stock. -/
def update_stock (db : DB) (product_id : String) (quantity_change : ℤ) :
    Option ℤ × DB :=
  match find_product_by_id db product_id with
  | none => (none, db)
  | some product =>
    let new_stock := product.stock.getD 0 + quantity_change
    if new_stock < 0 then (none, db)
    else (some new_stock,
          set_product db product_id { product with stock := some new_stock })

/-- `order_repository.find_order_by_id`. -/
def find_order_by_id (db : DB) (order_id : String) : Option Order :=
  db.orders order_id

/-- `order_repository.index_order_by_user`. -/
def index_order_by_user (db : DB) (order : Order) : DB :=
  { db with user_order_index := fun k =>
      if k = order.user_id then db.user_order_index order.user_id ++ [order.id]
      else db.user_order_index k }

/-- `order_repository.create_order_record`. -/
def create_order_record (db : DB) (order : Order) : Order × DB :=
  (order, index_order_by_user (set_order db order.id order) order)

/-- `order_repository.is_valid_status_transition`: the transition table. -/
def is_valid_status_transition (current target : String) : Bool :=
  let valid : List String :=
    if current = "created" then ["pending", "cancelled"]
    else if current = "pending" then ["processing", "cancelled"]
    else if current = "processing" then ["shipped", "cancelled"]
    else if current = "shipped" then ["delivered"]
    else if current = "delivered" then ["returned"]
    else []
  valid.contains target

/-- `order_repository.update_order_status`: `none` (state unchanged) when the
order is missing or the transition is not in the table; otherwise rewrites
only the `status` field and returns the updated order. -/
def update_order_status (db : DB) (order_id status : String) :
    Option Order × DB :=
  match find_order_by_id db order_id with
  | none => (none, db)
  | some order =>
    if !is_valid_status_transition order.status status then (none, db)
    else
      let updated := { order with status := status }
      (some updated, set_order db order_id updated)

/-- Stable insert used by `sort_queue`. -/
def insert_by_priority (e : QueueEntry) : List QueueEntry → List QueueEntry
  | [] => [e]
  | x :: xs =>
    if e.priority ≤ x.priority then e :: x :: xs
    else x :: insert_by_priority e xs

/-- `notification_service.sort_queue`: Python's stable `sort(key=priority)`,
modelled as stable insertion sort. -/
def sort_queue : List QueueEntry → List QueueEntry
  | [] => []
  | x :: xs => insert_by_priority x (sort_queue xs)

/-- `notification_service.queue_notification`: wrap the notification in a
queue entry, append it and re-sort the queue by priority. -/
def queue_notification (db : DB) (n : Notification) (priority : ℤ) :
    QueueEntry × DB :=
  let gen := generate_id db "q"
  let entry : QueueEntry :=
    { id := gen.1, notif := n, priority := priority, status := "queued" }
  (entry, { gen.2 with queue := sort_queue (gen.2.queue ++ [entry]) })

/-- `inventory_service.classify_stock_level`. -/
def classify_stock_level (stock : ℤ) : String :=
  if stock ≤ 0 then "out_of_stock"
  else if stock ≤ 10 then "low"
  else if stock ≤ 50 then "medium"
  else "high"

/-- The payload of `check_availability`'s success response. -/
structure AvailabilityInfo where
  available : Bool
  requested : ℤ
  in_stock : ℤ
deriving Repr, DecidableEq

/-- `inventory_service.check_availability` (read-only). -/
def check_availability (db : DB) (product_id : String) (quantity : ℤ) :
    ApiResult AvailabilityInfo :=
  match find_product_by_id db product_id with
  | none => format_error "NOT_FOUND" "Product not found"
  | some product =>
    format_response
      { available := decide (quantity ≤ product.stock.getD 0)
        requested := quantity
        in_stock := product.stock.getD 0 }

/-- `inventory_service.trigger_reorder_alert`: build the low-stock
notification and queue it at priority 1. -/
def trigger_reorder_alert (db : DB) (product : Product) : DB :=
  let subject := "Low stock: " ++ product.name.getD ""
  let body := "Product " ++ product.sku.getD "" ++ " has only " ++
    toString (product.stock.getD 0) ++ " units left."
  let cn := create_notification_model db "system" "email" subject body
  (queue_notification cn.2 cn.1 1).2

/-- `inventory_service.check_reorder_needed`: alert iff the product exists and
its current stock is at most 10. -/
def check_reorder_needed (db : DB) (product_id : String) : Bool × DB :=
  match find_product_by_id db product_id with
  | none => (false, db)
  | some product =>
    if product.stock.getD 0 ≤ 10 then (true, trigger_reorder_alert db product)
    else (false, db)

/-- The payload of `reserve_stock`'s success response. -/
structure ReserveInfo where
  reserved : ℤ
  remaining : ℤ
deriving Repr, DecidableEq

/-- The Python guard `availability.get("data", {}).get("available") is not True`
(inverted): the availability call succeeded and reported `available`. -/
def availability_ok : ApiResult AvailabilityInfo → Bool
  | .ok info => info.available
  | .error _ _ => false

/-- `inventory_service.reserve_stock`: check availability, adjust stock
downward, then run the low-stock reorder check. -/
def reserve_stock (db : DB) (product_id : String) (quantity : ℤ) :
    ApiResult ReserveInfo × DB :=
  if !availability_ok (check_availability db product_id quantity) then
    (format_error "OUT_OF_STOCK" "Insufficient stock", db)
  else
    let adj := update_stock db product_id (-quantity)
    match adj.1 with
    | none => (format_error "RESERVE_FAILED" "Could not reserve stock", adj.2)
    | some new_stock =>
      let db2 := (check_reorder_needed adj.2 product_id).2
      (format_response { reserved := quantity, remaining := new_stock }, db2)

/-- `order_service.check_product_exists`. -/
def check_product_exists (db : DB) (product_id : String) : Bool :=
  (find_product_by_id db product_id).isSome

/-- The result dict of `order_service.validate_order_items`. -/
structure ValidationOutcome where
  valid : Bool
  reason : String
deriving Repr, DecidableEq

/-- The `for item in items` loop body of `validate_order_items`: first failing
check wins; note the `.get` defaults (`quantity` 0, `price` 0) and that the
not-found message renders a missing `product_id` as Python's `None`. -/
def validate_items_loop (db : DB) : List RawItem → ValidationOutcome
  | [] => { valid := true, reason := "" }
  | item :: rest =>
    if !validate_quantity (item.quantity.getD 0) then
      { valid := false, reason := "Invalid quantity" }
    else if !validate_amount (item.price.getD 0) then
      { valid := false, reason := "Invalid price" }
    else if !check_product_exists db (item.product_id.getD "") then
      { valid := false,
        reason := "Product " ++ (match item.product_id with
          | some s => s
          | none => "None") ++ " not found" }
    else validate_items_loop db rest

/-- `order_service.validate_order_items`. -/
def validate_order_items (db : DB) (items : List RawItem) : ValidationOutcome :=
  if items.isEmpty then { valid := false, reason := "No items" }
  else validate_items_loop db items

/-- `order_service.reserve_order_stock`: decrement stock for every item; the
return value of each `update_stock` call is discarded. -/
def reserve_order_stock (db : DB) (order : Order) : DB :=
  order.items.foldl (fun d item => (update_stock d item.product_id (-item.quantity)).2) db

/-- `order_service.release_order_stock`: increment stock for every item; the
return value of each `update_stock` call is discarded. -/
def release_order_stock (db : DB) (order : Order) : DB :=
  order.items.foldl (fun d item => (update_stock d item.product_id item.quantity).2) db

/-- `order_service.create_order`. -/
def create_order (db : DB) (user_id : String) (items : List RawItem)
    (currency : String) : ApiResult Order × DB :=
  match find_user_by_id db user_id with
  | none => (format_error "USER_NOT_FOUND" "User does not exist", db)
  | some user =>
    if !(user.active.getD false) then
      (format_error "USER_INACTIVE" "User account is inactive", db)
    else if !validate_currency currency then
      (format_error "BAD_CURRENCY" "Unsupported currency", db)
    else
      let validation := validate_order_items db items
      if !validation.valid then
        (format_error "INVALID_ITEMS" validation.reason, db)
      else
        let om := create_order_model db user_id items currency
        let cr := create_order_record om.2 om.1
        let db3 := reserve_order_stock cr.2 cr.1
        (format_response cr.1, db3)

/-- `order_service.cancel_order`. -/
def cancel_order (db : DB) (order_id user_id : String) : ApiResult Order × DB :=
  match find_order_by_id db order_id with
  | none => (format_error "NOT_FOUND" "Order not found", db)
  | some order =>
    if order.user_id ≠ user_id then
      (format_error "FORBIDDEN" "Not your order", db)
    else
      let upd := update_order_status db order_id "cancelled"
      match upd.1 with
      | none => (format_error "INVALID_STATE" "Cannot cancel in current state", upd.2)
      | some updated => (format_response updated, release_order_stock upd.2 order)

/-! ## Shared sample data for witnesses -/

/-- A state with empty tables. -/
def empty_db : DB :=
  { products := fun _ => none
    orders := fun _ => none
    users := fun _ => none
    user_order_index := fun _ => []
    queue := []
    next_uid := 0 }

/-- An active sample user `u1`. -/
def sample_user : User :=
  { id := "u1", name := "Alice", email := "alice@example.com", role := "user",
    active := some true }

/-- A sample product `p1` with the given stock. -/
def sample_product (s : ℤ) : Product :=
  { id := "p1", sku := some "SKU1", name := some "Widget", price := some 10,
    stock := some s, active := some true }

/-- A state holding user `u1` and product `p1` with the given stock. -/
def sample_db (s : ℤ) : DB :=
  { empty_db with
    products := fun k => if k = "p1" then some (sample_product s) else none
    users := fun k => if k = "u1" then some sample_user else none }

/-- A sample order `o1` of user `u1` for 3 units of `p1`, at the given
status. -/
def sample_order (st : String) : Order :=
  { id := "o1", user_id := "u1"
    items := [{ product_id := "p1", quantity := 3, price := 10, subtotal := 30 }]
    total := 30, currency := "USD", status := st }

/-- A state holding user `u1`, product `p1` with the given stock, and order
`o1` at the given status. -/
def order_db (s : ℤ) (st : String) : DB :=
  { sample_db s with
    orders := fun k => if k = "o1" then some (sample_order st) else none }

/-! ## C1: stock non-negativity under `update_stock` -/

/-- Every product present in the table has non-negative stock. -/
def NonNegStock (db : DB) : Prop :=
  ∀ pid p, db.products pid = some p → 0 ≤ p.stock.getD 0

/-- A sequence of `update_stock` calls (product id, delta), applied in order. -/
def apply_adjustments (db : DB) (cmds : List (String × ℤ)) : DB :=
  cmds.foldl (fun d c => (update_stock d c.1 c.2).2) db

/-- A single `update_stock` call preserves stock non-negativity. -/
theorem update_stock_preserves_nonneg (db : DB) (pid : String) (delta : ℤ)
    (h : NonNegStock db) : NonNegStock (update_stock db pid delta).2 := by
  unfold update_stock
  cases hp : find_product_by_id db pid with
  | none => exact h
  | some p =>
    by_cases hneg : p.stock.getD 0 + delta < 0
    · simpa [hneg] using h
    · simp only [hneg, if_false]
      intro qid q hq
      simp only [set_product] at hq
      by_cases hqid : qid = pid
      · rw [if_pos hqid] at hq
        cases hq
        simpa using not_lt.mp hneg
      · rw [if_neg hqid] at hq
        exact h qid q hq

/-- Any sequence of `update_stock` calls preserves stock non-negativity. -/
theorem apply_adjustments_nonneg (cmds : List (String × ℤ)) :
    ∀ db : DB, NonNegStock db → NonNegStock (apply_adjustments db cmds) := by
  induction cmds with
  | nil => intro db h; exact h
  | cons c cs ih =>
    intro db h
    exact ih _ (update_stock_preserves_nonneg db c.1 c.2 h)

/-- **C1.** An `update_stock` adjustment whose result would be negative
returns `none` and leaves the state unchanged; otherwise the new stock is
committed and returned; consequently, over any sequence of `update_stock`
calls starting from a state where all stocks are non-negative, no product's
stock ever becomes negative. -/
theorem update_stock_never_negative (db : DB) (pid : String) (p : Product)
    (hp : find_product_by_id db pid = some p) (delta : ℤ) :
    (p.stock.getD 0 + delta < 0 → update_stock db pid delta = (none, db)) ∧
    (0 ≤ p.stock.getD 0 + delta →
      update_stock db pid delta =
        (some (p.stock.getD 0 + delta),
         set_product db pid { p with stock := some (p.stock.getD 0 + delta) })) ∧
    (NonNegStock db →
      ∀ cmds : List (String × ℤ), NonNegStock (apply_adjustments db cmds)) := by
  refine ⟨?_, ?_, fun h0 cmds => apply_adjustments_nonneg cmds db h0⟩
  · intro hneg
    unfold update_stock
    rw [hp]
    simp [hneg]
  · intro hge
    unfold update_stock
    rw [hp]
    simp [not_lt.mpr hge]

/-- Witness for C1 at a concrete state: adjusting product `p1` (stock 5) by
`-7` fails and leaves the state unchanged. -/
theorem update_stock_never_negative_witness :
    update_stock (sample_db 5) "p1" (-7) = (none, sample_db 5) :=
  (update_stock_never_negative (sample_db 5) "p1" (sample_product 5) rfl (-7)).1
    (by decide)

/-! ## C4: `classify_stock_level` thresholds -/

/-- **C4 (counterexample).** The claim's boundary list pairs input 11 with
`Low`; the code classifies 11 (which is > 10 and ≤ 50) as `"medium"`. -/
theorem classify_stock_level_11_counterexample :
    classify_stock_level 11 = "medium" ∧ classify_stock_level 11 ≠ "low" := by
  refine ⟨by decide, by decide⟩

/-- **C4 (amended).** `classify_stock_level` is a pure function of its input
(it is a Lean function, so determinism is definitional) mapping stock by the
fixed thresholds ≤0 → out_of_stock, ≤10 → low, ≤50 → medium, >50 → high; the
boundary inputs 0, 10, 11, 50, 51 map to out_of_stock, low, medium, medium,
high respectively. -/
theorem classify_stock_level_spec (stock : ℤ) :
    (stock ≤ 0 → classify_stock_level stock = "out_of_stock") ∧
    (0 < stock → stock ≤ 10 → classify_stock_level stock = "low") ∧
    (10 < stock → stock ≤ 50 → classify_stock_level stock = "medium") ∧
    (50 < stock → classify_stock_level stock = "high") ∧
    classify_stock_level 0 = "out_of_stock" ∧
    classify_stock_level 10 = "low" ∧
    classify_stock_level 11 = "medium" ∧
    classify_stock_level 50 = "medium" ∧
    classify_stock_level 51 = "high" := by
  refine ⟨?_, ?_, ?_, ?_, by decide, by decide, by decide, by decide, by decide⟩
  all_goals unfold classify_stock_level
  · intro h; rw [if_pos h]
  · intro h1 h2; rw [if_neg (by omega), if_pos h2]
  · intro h1 h2; rw [if_neg (by omega), if_neg (by omega), if_pos h2]
  · intro h; rw [if_neg (by omega), if_neg (by omega), if_neg (by omega)]

/-- Witness for C4 at a concrete input: stock 7 is classified low. -/
theorem classify_stock_level_spec_witness :
    classify_stock_level 7 = "low" :=
  (classify_stock_level_spec 7).2.1 (by decide) (by decide)

/-! ## C2: the order status state machine -/

/-- Statuses reachable from `"created"` through the transition table. -/
inductive ReachableStatus : String → Prop where
  | created : ReachableStatus "created"
  | step (s t : String) : ReachableStatus s →
      is_valid_status_transition s t = true → ReachableStatus t

/-- Every order in the table has a status reachable from `"created"`. -/
def AllOrdersReachable (db : DB) : Prop :=
  ∀ oid o, db.orders oid = some o → ReachableStatus o.status

/-- A sequence of `update_order_status` calls (order id, target status). -/
def apply_status_updates (db : DB) (cmds : List (String × String)) : DB :=
  cmds.foldl (fun d c => (update_order_status d c.1 c.2).2) db

/-- `update_stock` never touches the order table. -/
theorem update_stock_orders_eq (db : DB) (pid : String) (q : ℤ) :
    (update_stock db pid q).2.orders = db.orders := by
  unfold update_stock
  cases hp : find_product_by_id db pid with
  | none => rfl
  | some p =>
    by_cases hneg : p.stock.getD 0 + q < 0
    · simp [hneg]
    · simp [hneg, set_product]

/-- `reserve_order_stock` never touches the order table. -/
theorem reserve_order_stock_orders_eq (db : DB) (o : Order) :
    (reserve_order_stock db o).orders = db.orders := by
  unfold reserve_order_stock
  generalize o.items = its
  induction its generalizing db with
  | nil => rfl
  | cons i is ih =>
    rw [List.foldl_cons, ih]
    exact update_stock_orders_eq db i.product_id (-i.quantity)

/-- `release_order_stock` never touches the order table. -/
theorem release_order_stock_orders_eq (db : DB) (o : Order) :
    (release_order_stock db o).orders = db.orders := by
  unfold release_order_stock
  generalize o.items = its
  induction its generalizing db with
  | nil => rfl
  | cons i is ih =>
    rw [List.foldl_cons, ih]
    exact update_stock_orders_eq db i.product_id i.quantity

/-- Unfolding of `create_order_model` with the fresh id written out. -/
theorem create_order_model_eq (db : DB) (uid : String) (items : List RawItem)
    (cur : String) :
    create_order_model db uid items cur =
      ({ id := "ord_" ++ toString db.next_uid, user_id := uid
         items := items.map create_order_item
         total := ((items.map create_order_item).map OrderItem.subtotal).sum
         currency := cur, status := "created" },
       { db with next_uid := db.next_uid + 1 }) := by
  simp [create_order_model, generate_id]

/-- A single `update_order_status` call preserves reachability of every
order's status. -/
theorem update_order_status_preserves_reachable (db : DB) (oid target : String)
    (h : AllOrdersReachable db) :
    AllOrdersReachable (update_order_status db oid target).2 := by
  unfold update_order_status
  cases ho : find_order_by_id db oid with
  | none => exact h
  | some o =>
    dsimp only
    by_cases hv : is_valid_status_transition o.status target = true
    · rw [if_neg (by simp [hv])]
      intro qid q hq
      simp only [set_order] at hq
      by_cases hqid : qid = oid
      · rw [if_pos hqid] at hq
        cases hq
        exact ReachableStatus.step o.status target (h oid o ho) hv
      · rw [if_neg hqid] at hq
        exact h qid q hq
    · rw [if_pos (by simp [hv])]
      exact h

/-- Any sequence of `update_order_status` calls preserves reachability. -/
theorem apply_status_updates_reachable (cmds : List (String × String)) :
    ∀ db : DB, AllOrdersReachable db →
      AllOrdersReachable (apply_status_updates db cmds) := by
  induction cmds with
  | nil => intro db h; exact h
  | cons c cs ih =>
    intro db h
    exact ih _ (update_order_status_preserves_reachable db c.1 c.2 h)

/-- `create_order` preserves reachability: on failure the state is unchanged,
on success the one order it adds starts at status `"created"`. -/
theorem create_order_preserves_reachable (db : DB) (uid : String)
    (items : List RawItem) (cur : String) (h : AllOrdersReachable db) :
    AllOrdersReachable (create_order db uid items cur).2 := by
  unfold create_order
  cases hu : find_user_by_id db uid with
  | none => exact h
  | some user =>
    dsimp only
    by_cases hact : user.active.getD false = true
    · rw [if_neg (by simp [hact])]
      by_cases hcur : validate_currency cur = true
      · rw [if_neg (by simp [hcur])]
        by_cases hval : (validate_order_items db items).valid = true
        · rw [if_neg (by simp [hval])]
          intro qid q hq
          rw [reserve_order_stock_orders_eq] at hq
          simp only [create_order_record, index_order_by_user, set_order,
            create_order_model_eq] at hq
          by_cases hqid : qid = "ord_" ++ toString db.next_uid
          · rw [if_pos hqid] at hq
            cases hq
            exact ReachableStatus.created
          · rw [if_neg hqid] at hq
            exact h qid q hq
        · rw [if_pos (by simp [hval])]
          exact h
      · rw [if_pos (by simp [hcur])]
        exact h
    · rw [if_pos (by simp [hact])]
      exact h

/-- **C2.** Any attempted transition not in the table is rejected (`none` is
returned) and leaves the state unchanged; and the set of states in which
every order's status is reachable from `"created"` via the transition table
is closed under arbitrary sequences of `update_order_status` calls and under
`create_order` (which introduces orders at status `"created"`). -/
theorem order_status_transitions (db : DB) :
    (∀ oid o target, find_order_by_id db oid = some o →
      is_valid_status_transition o.status target = false →
      update_order_status db oid target = (none, db)) ∧
    (AllOrdersReachable db →
      ∀ cmds : List (String × String),
        AllOrdersReachable (apply_status_updates db cmds)) ∧
    (AllOrdersReachable db →
      ∀ uid items cur, AllOrdersReachable (create_order db uid items cur).2) := by
  refine ⟨?_, fun h cmds => apply_status_updates_reachable cmds db h,
    fun h uid items cur => create_order_preserves_reachable db uid items cur h⟩
  intro oid o target ho hv
  unfold update_order_status
  rw [ho]
  simp [hv]

/-- Witness for C2 at a concrete state: an order at status `"shipped"` cannot
be moved to `"cancelled"`; the call returns `none` and the state is
unchanged. -/
theorem order_status_transitions_witness :
    update_order_status (order_db 5 "shipped") "o1" "cancelled" =
      (none, order_db 5 "shipped") :=
  (order_status_transitions (order_db 5 "shipped")).1 "o1"
    (sample_order "shipped") "cancelled" rfl (by decide)

/-! ## C10: `update_order_status` mutates only the status field -/

/-- **C10.** For an existing order, `update_order_status` changes at most the
order's `status` field: on failure the whole state is unchanged; on success
the updated order keeps its `id`, `user_id`, `items`, `total` and `currency`,
the product table is untouched, only the targeted order's table entry is
rewritten, and every other order is unchanged. -/
theorem update_order_status_frame (db : DB) (oid target : String) (o : Order)
    (ho : find_order_by_id db oid = some o) :
    ((update_order_status db oid target).1 = none →
      (update_order_status db oid target).2 = db) ∧
    (∀ o', (update_order_status db oid target).1 = some o' →
      o'.id = o.id ∧ o'.user_id = o.user_id ∧ o'.items = o.items ∧
      o'.total = o.total ∧ o'.currency = o.currency ∧ o'.status = target ∧
      (update_order_status db oid target).2.products = db.products ∧
      (update_order_status db oid target).2.orders oid = some o' ∧
      ∀ oid2, oid2 ≠ oid →
        (update_order_status db oid target).2.orders oid2 = db.orders oid2) := by
  unfold update_order_status
  rw [ho]
  dsimp only
  by_cases hv : is_valid_status_transition o.status target = true
  · rw [if_neg (by simp [hv])]
    refine ⟨fun hnone => Option.noConfusion hnone, ?_⟩
    intro o' ho'
    injection ho' with ho'
    subst ho'
    refine ⟨rfl, rfl, rfl, rfl, rfl, rfl, rfl, ?_, ?_⟩
    · simp [set_order]
    · intro oid2 hne
      simp [set_order, hne]
  · rw [if_pos (by simp [hv])]
    exact ⟨fun _ => rfl, fun o' ho' => Option.noConfusion ho'⟩

/-- Witness for C10 at a concrete state: moving order `o1` from `"created"`
to `"pending"` keeps its `id` field. -/
theorem update_order_status_frame_witness :
    (sample_order "pending").id = (sample_order "created").id :=
  ((update_order_status_frame (order_db 5 "created") "o1" "pending"
      (sample_order "created") rfl).2 (sample_order "pending") rfl).1

/-! ## C5: validation of `create_order` -/

/-- The conjunction of the three per-item checks of `validate_order_items`,
in source order. -/
def item_valid (db : DB) (item : RawItem) : Bool :=
  validate_quantity (item.quantity.getD 0) &&
  (validate_amount (item.price.getD 0) &&
   check_product_exists db (item.product_id.getD ""))

/-- The user gate of `create_order`: the user exists and is active. -/
def user_active_ok (db : DB) (uid : String) : Bool :=
  match find_user_by_id db uid with
  | none => false
  | some u => u.active.getD false

/-- The loop of `validate_order_items` accepts exactly the lists whose every
item passes the three checks. -/
theorem validate_items_loop_valid (db : DB) (items : List RawItem) :
    (validate_items_loop db items).valid = items.all (item_valid db) := by
  induction items with
  | nil => rfl
  | cons item rest ih =>
    unfold validate_items_loop
    by_cases hq : validate_quantity (item.quantity.getD 0) = true
    · rw [if_neg (by simp [hq])]
      by_cases hp : validate_amount (item.price.getD 0) = true
      · rw [if_neg (by simp [hp])]
        by_cases hx : check_product_exists db (item.product_id.getD "") = true
        · rw [if_neg (by simp [hx])]
          simp [item_valid, hq, hp, hx, ih]
        · rw [if_pos (by simp [hx])]
          simp [item_valid, hx]
      · rw [if_pos (by simp [hp])]
        simp [item_valid, hp]
    · rw [if_pos (by simp [hq])]
      simp [item_valid, hq]

/-- `validate_order_items` accepts exactly non-empty lists of valid items. -/
theorem validate_order_items_valid (db : DB) (items : List RawItem) :
    (validate_order_items db items).valid =
      (!items.isEmpty && items.all (item_valid db)) := by
  unfold validate_order_items
  cases items with
  | nil => rfl
  | cons a l =>
    rw [if_neg (by simp)]
    simp [validate_items_loop_valid]

/-- Arithmetic characterization of `validate_amount` (with its default
bounds): accepted amounts are exactly those in [0.01, 999999.99] with at
most two decimal places. -/
theorem validate_amount_iff (a : ℚ) :
    validate_amount a = true ↔
      1 / 100 ≤ a ∧ a ≤ 99999999 / 100 ∧ (a * 100).den = 1 := by
  unfold validate_amount validate_decimal_places
  have hpow : (10 : ℚ) ^ 2 = 100 := by norm_num
  rw [hpow]
  by_cases h1 : a < 1 / 100
  · rw [if_pos (by simp only [Bool.or_eq_true, decide_eq_true_eq]; exact Or.inl h1)]
    exact ⟨fun h => Bool.noConfusion h, fun h => absurd h.1 (not_le.mpr h1)⟩
  · by_cases h2 : a > 99999999 / 100
    · rw [if_pos (by simp only [Bool.or_eq_true, decide_eq_true_eq]; exact Or.inr h2)]
      exact ⟨fun h => Bool.noConfusion h, fun h => absurd h.2.1 (not_le.mpr h2)⟩
    · rw [if_neg (by simp only [Bool.or_eq_true, decide_eq_true_eq]; exact not_or.mpr ⟨h1, h2⟩)]
      rw [beq_iff_eq]
      exact ⟨fun hden => ⟨not_lt.mp h1, not_lt.mp h2, hden⟩, fun h => h.2.2⟩

/-- `create_order` returns an error exactly when the user gate, the currency
check, the non-emptiness check or some per-item check fails. -/
theorem create_order_is_err (db : DB) (uid : String) (items : List RawItem)
    (cur : String) :
    (create_order db uid items cur).1.is_err =
      (!user_active_ok db uid ||
       (!validate_currency cur ||
        (items.isEmpty || !items.all (item_valid db)))) := by
  unfold create_order
  cases hu : find_user_by_id db uid with
  | none => simp [ApiResult.is_err, format_error, user_active_ok, hu]
  | some user =>
    dsimp only
    cases hact : user.active.getD false with
    | false =>
      rw [if_pos (by simp [hact])]
      simp [ApiResult.is_err, format_error, user_active_ok, hu, hact]
    | true =>
      rw [if_neg (by simp [hact])]
      cases hcur : validate_currency cur with
      | false =>
        rw [if_pos (by simp [hcur])]
        simp [ApiResult.is_err, format_error, user_active_ok, hu, hact, hcur]
      | true =>
        rw [if_neg (by simp [hcur])]
        cases hval : (validate_order_items db items).valid with
        | false =>
          rw [if_pos (by simp [hval])]
          rw [validate_order_items_valid] at hval
          simp only [ApiResult.is_err, format_error, user_active_ok, hu, hact,
            hcur, Bool.not_true, Bool.false_or]
          cases hie : items.isEmpty <;>
            cases hall : items.all (item_valid db) <;> simp_all
        | true =>
          rw [if_neg (by simp [hval])]
          rw [validate_order_items_valid] at hval
          simp only [ApiResult.is_err, format_response, user_active_ok, hu,
            hact, hcur, Bool.not_true, Bool.false_or]
          cases hie : items.isEmpty <;>
            cases hall : items.all (item_valid db) <;> simp_all

/-- On any validation failure `create_order` leaves the state completely
unchanged. -/
theorem create_order_err_state (db : DB) (uid : String) (items : List RawItem)
    (cur : String) (h : (create_order db uid items cur).1.is_err = true) :
    (create_order db uid items cur).2 = db := by
  unfold create_order at h ⊢
  cases hu : find_user_by_id db uid with
  | none => rfl
  | some user =>
    rw [hu] at h
    dsimp only at h ⊢
    by_cases hact : user.active.getD false = true
    · rw [if_neg (by simp [hact])] at h ⊢
      by_cases hcur : validate_currency cur = true
      · rw [if_neg (by simp [hcur])] at h ⊢
        by_cases hval : (validate_order_items db items).valid = true
        · rw [if_neg (by simp [hval])] at h
          simp [ApiResult.is_err, format_response] at h
        · rw [if_pos (by simp [hval])]
      · rw [if_pos (by simp [hcur])]
    · rw [if_pos (by simp [hact])]

/-- **C5 (amended).** `create_order` returns a validation error exactly when
the user does not exist or is inactive, the currency is unsupported, the item
list is empty, or some item fails the per-item checks — where an item is
valid iff its quantity is in (0, 10000], its price is in [0.01, 999999.99]
with at most two decimal places, and its referenced product exists; on any
such failure the state (in particular the product and order tables) is
unchanged. -/
theorem create_order_validation (db : DB) (uid : String) (items : List RawItem)
    (cur : String) :
    ((create_order db uid items cur).1.is_err =
      (!user_active_ok db uid ||
       (!validate_currency cur ||
        (items.isEmpty || !items.all (item_valid db))))) ∧
    ((create_order db uid items cur).1.is_err = true →
      (create_order db uid items cur).2 = db) ∧
    (∀ a : ℚ, validate_amount a = true ↔
      1 / 100 ≤ a ∧ a ≤ 99999999 / 100 ∧ (a * 100).den = 1) ∧
    (∀ q : ℤ, validate_quantity q = true ↔ 0 < q ∧ q ≤ 10000) :=
  ⟨create_order_is_err db uid items cur, create_order_err_state db uid items cur,
   validate_amount_iff, fun q => by simp [validate_quantity]⟩

/-- Witness for C5 at a concrete state: creating an order for a missing user
`u2` fails and leaves the state unchanged. -/
theorem create_order_validation_witness :
    (create_order (sample_db 5) "u2" [] "USD").2 = sample_db 5 :=
  (create_order_validation (sample_db 5) "u2" [] "USD").2.1 rfl

/-- **C5 (counterexample).** An item priced 0 satisfies every condition the
claim calls valid (price ≥ 0 with at most two decimal places, quantity in
range, existing product, active user, supported currency), yet
`create_order` rejects it, because `validate_amount` uses the lower bound
0.01, not 0. -/
theorem create_order_price_zero_counterexample :
    validate_decimal_places 0 2 = true ∧
    validate_quantity 1 = true ∧
    check_product_exists (sample_db 5) "p1" = true ∧
    user_active_ok (sample_db 5) "u1" = true ∧
    validate_currency "USD" = true ∧
    validate_amount 0 = false ∧
    (create_order (sample_db 5) "u1"
        [{ product_id := some "p1", quantity := some 1, price := some 0 }]
        "USD").1 =
      format_error "INVALID_ITEMS" "Invalid price" := by
  have hamt : validate_amount 0 = false := by
    unfold validate_amount
    rw [if_pos (by norm_num)]
  refine ⟨by norm_num [validate_decimal_places], by decide, rfl, rfl,
    by decide, hamt, ?_⟩
  unfold create_order
  rw [show find_user_by_id (sample_db 5) "u1" = some sample_user from rfl]
  dsimp only
  rw [if_neg (by decide), if_neg (by decide)]
  have hloop : validate_items_loop (sample_db 5)
      [{ product_id := some "p1", quantity := some 1, price := some 0 }] =
      { valid := false, reason := "Invalid price" } := by
    unfold validate_items_loop
    rw [if_neg (by decide), if_pos (by simp [hamt])]
  have hval : validate_order_items (sample_db 5)
      [{ product_id := some "p1", quantity := some 1, price := some 0 }] =
      { valid := false, reason := "Invalid price" } := by
    unfold validate_order_items
    rw [if_neg (by simp), hloop]
  rw [hval, if_pos (by decide)]

/-! ## Shared evaluation lemmas for the order-creation scenarios -/

/-- The stock count the program would report for a product, if present. -/
def stock_of (db : DB) (product_id : String) : Option ℤ :=
  (db.products product_id).map (fun p => p.stock.getD 0)

/-- `update_stock` on a sufficient balance: commits and returns the sum. -/
theorem update_stock_commit_eq (db : DB) (pid : String) (d : ℤ) (p : Product)
    (hp : find_product_by_id db pid = some p) (h : 0 ≤ p.stock.getD 0 + d) :
    update_stock db pid d =
      (some (p.stock.getD 0 + d),
       set_product db pid { p with stock := some (p.stock.getD 0 + d) }) := by
  unfold update_stock
  rw [hp]
  dsimp only
  rw [if_neg (not_lt.mpr h)]

/-- `update_stock` on an insufficient balance: fails, state unchanged. -/
theorem update_stock_fail_eq (db : DB) (pid : String) (d : ℤ) (p : Product)
    (hp : find_product_by_id db pid = some p) (h : p.stock.getD 0 + d < 0) :
    update_stock db pid d = (none, db) := by
  unfold update_stock
  rw [hp]
  dsimp only
  rw [if_pos h]

/-- `update_stock` never touches products under other keys. -/
theorem update_stock_other (db : DB) (pid : String) (d : ℤ) (k : String)
    (hk : k ≠ pid) : (update_stock db pid d).2.products k = db.products k := by
  unfold update_stock
  cases hp : find_product_by_id db pid with
  | none => rfl
  | some p =>
    dsimp only
    by_cases hneg : p.stock.getD 0 + d < 0
    · rw [if_pos hneg]
    · rw [if_neg hneg]
      simp [set_product, hk]

/-- `update_stock` never touches the notification queue. -/
theorem update_stock_queue_eq (db : DB) (pid : String) (d : ℤ) :
    (update_stock db pid d).2.queue = db.queue := by
  unfold update_stock
  cases hp : find_product_by_id db pid with
  | none => rfl
  | some p =>
    dsimp only
    by_cases hneg : p.stock.getD 0 + d < 0
    · rw [if_pos hneg]
    · rw [if_neg hneg]
      rfl

/-- `reserve_order_stock` never touches the notification queue. -/
theorem reserve_order_stock_queue_eq (db : DB) (o : Order) :
    (reserve_order_stock db o).queue = db.queue := by
  unfold reserve_order_stock
  generalize o.items = its
  induction its generalizing db with
  | nil => rfl
  | cons i is ih =>
    rw [List.foldl_cons, ih]
    exact update_stock_queue_eq db i.product_id (-i.quantity)

/-- The order built by `create_order` for a single fully-specified item. -/
def single_order (db : DB) (uid pid : String) (q : ℤ) (price : ℚ)
    (cur : String) : Order :=
  { id := "ord_" ++ toString db.next_uid, user_id := uid
    items := [{ product_id := pid, quantity := q, price := price,
                subtotal := q * price }]
    total := q * price, currency := cur, status := "created" }

/-- The state right after `create_order` has persisted a single-item order,
before stock reservation. -/
def after_record (db : DB) (uid pid : String) (q : ℤ) (price : ℚ)
    (cur : String) : DB :=
  index_order_by_user
    (set_order { db with next_uid := db.next_uid + 1 }
      ("ord_" ++ toString db.next_uid) (single_order db uid pid q price cur))
    (single_order db uid pid q price cur)

/-- Evaluation of `create_order` on a single valid item: the order is built
and persisted, then one `update_stock` call attempts the reservation. -/
theorem create_order_single_eval (db : DB) (uid : String) (u : User)
    (hu : find_user_by_id db uid = some u) (hact : u.active.getD false = true)
    (cur : String) (hcur : validate_currency cur = true)
    (pid : String) (q : ℤ) (price : ℚ)
    (hq : validate_quantity q = true) (hp : validate_amount price = true)
    (hex : (find_product_by_id db pid).isSome = true) :
    create_order db uid
        [{ product_id := some pid, quantity := some q, price := some price }]
        cur =
      (format_response (single_order db uid pid q price cur),
       (update_stock (after_record db uid pid q price cur) pid (-q)).2) := by
  have hval : (validate_order_items db
      [{ product_id := some pid, quantity := some q, price := some price }]).valid
      = true := by
    rw [validate_order_items_valid]
    simp [item_valid, hq, hp, check_product_exists, hex]
  unfold create_order
  rw [hu]
  dsimp only
  rw [if_neg (by simp [hact]), if_neg (by simp [hcur]), if_neg (by simp [hval])]
  have hom : create_order_model db uid
      [{ product_id := some pid, quantity := some q, price := some price }] cur =
      (single_order db uid pid q price cur, { db with next_uid := db.next_uid + 1 }) := by
    rw [create_order_model_eq]
    simp [single_order, create_order_item]
  rw [hom]
  rfl

/-- `after_record` leaves the product table untouched. -/
theorem after_record_products (db : DB) (uid pid : String) (q : ℤ) (price : ℚ)
    (cur : String) : (after_record db uid pid q price cur).products = db.products := rfl

/-- `after_record` holds the new order under its fresh id. -/
theorem after_record_order (db : DB) (uid pid : String) (q : ℤ) (price : ℚ)
    (cur : String) :
    find_order_by_id (after_record db uid pid q price cur)
      ("ord_" ++ toString db.next_uid) =
      some (single_order db uid pid q price cur) := by
  simp [after_record, index_order_by_user, set_order, find_order_by_id,
    single_order]

/-- The sample price 10.00 passes `validate_amount`. -/
theorem validate_amount_ten : validate_amount 10 = true := by
  rw [validate_amount_iff]
  norm_num

/-- `create_order` on a single valid item with sufficient stock: the order is
persisted and the stock committed to the decremented value. -/
theorem create_order_single_success (db : DB) (uid : String) (u : User)
    (hu : find_user_by_id db uid = some u) (hact : u.active.getD false = true)
    (cur : String) (hcur : validate_currency cur = true)
    (pid : String) (q : ℤ) (price : ℚ)
    (hq : validate_quantity q = true) (hp : validate_amount price = true)
    (p : Product) (hpp : find_product_by_id db pid = some p)
    (hstock : q ≤ p.stock.getD 0) :
    create_order db uid
        [{ product_id := some pid, quantity := some q, price := some price }]
        cur =
      (format_response (single_order db uid pid q price cur),
       set_product (after_record db uid pid q price cur) pid
         { p with stock := some (p.stock.getD 0 - q) }) := by
  rw [create_order_single_eval db uid u hu hact cur hcur pid q price hq hp
    (by rw [show find_product_by_id db pid = some p from hpp]; rfl)]
  rw [update_stock_commit_eq (after_record db uid pid q price cur) pid (-q) p
    hpp (by omega)]
  simp [sub_eq_add_neg]

/-- `create_order` on a single valid item with insufficient stock: the order
is persisted all the same, the reservation fails silently and the product
table is unchanged. -/
theorem create_order_single_insufficient (db : DB) (uid : String) (u : User)
    (hu : find_user_by_id db uid = some u) (hact : u.active.getD false = true)
    (cur : String) (hcur : validate_currency cur = true)
    (pid : String) (q : ℤ) (price : ℚ)
    (hq : validate_quantity q = true) (hp : validate_amount price = true)
    (p : Product) (hpp : find_product_by_id db pid = some p)
    (hstock : p.stock.getD 0 < q) :
    create_order db uid
        [{ product_id := some pid, quantity := some q, price := some price }]
        cur =
      (format_response (single_order db uid pid q price cur),
       after_record db uid pid q price cur) := by
  rw [create_order_single_eval db uid u hu hact cur hcur pid q price hq hp
    (by rw [show find_product_by_id db pid = some p from hpp]; rfl)]
  rw [update_stock_fail_eq (after_record db uid pid q price cur) pid (-q) p
    hpp (by omega)]

/-! ## C3: the successful order-creation scenario -/

/-- **C3 (amended).** For every validated single-item order creation,
`create_order` succeeds, the created order has status `"created"` and total
`quantity * price`, and the order is persisted; the product's stock is
decremented by the ordered quantity PROVIDED the quantity does not exceed
the stock (validation does not inspect stock, and an insufficient
reservation leaves it unchanged — see the counterexample). -/
theorem create_order_success_spec (db : DB) (uid : String) (u : User)
    (hu : find_user_by_id db uid = some u) (hact : u.active.getD false = true)
    (cur : String) (hcur : validate_currency cur = true)
    (pid : String) (q : ℤ) (price : ℚ)
    (hq : validate_quantity q = true) (hp : validate_amount price = true)
    (p : Product) (hpp : find_product_by_id db pid = some p) :
    ∃ ord db',
      create_order db uid
          [{ product_id := some pid, quantity := some q, price := some price }]
          cur = (format_response ord, db') ∧
      ord.status = "created" ∧
      ord.user_id = uid ∧
      ord.total = q * price ∧
      ord.items = [{ product_id := pid, quantity := q, price := price,
                     subtotal := q * price }] ∧
      find_order_by_id db' ord.id = some ord ∧
      (q ≤ p.stock.getD 0 →
        stock_of db' pid = some (p.stock.getD 0 - q)) := by
  by_cases hstock : q ≤ p.stock.getD 0
  · refine ⟨single_order db uid pid q price cur, _,
      create_order_single_success db uid u hu hact cur hcur pid q price hq hp p
        hpp hstock, rfl, rfl, rfl, rfl, ?_, fun _ => ?_⟩
    · exact after_record_order db uid pid q price cur
    · simp [stock_of, set_product]
  · refine ⟨single_order db uid pid q price cur, _,
      create_order_single_insufficient db uid u hu hact cur hcur pid q price hq
        hp p hpp (by omega), rfl, rfl, rfl, rfl, ?_, fun hle => absurd hle hstock⟩
    exact after_record_order db uid pid q price cur

/-- Witness for C3 at the spec's concrete scenario: stock 5, one item of
quantity 3 at price 10.00, USD, active user — creation succeeds at status
`created` and the stock drops to 2. -/
theorem create_order_success_spec_witness :
    ∃ ord db',
      create_order (sample_db 5) "u1"
          [{ product_id := some "p1", quantity := some 3, price := some 10 }]
          "USD" = (format_response ord, db') ∧
      ord.status = "created" ∧ ord.total = 30 ∧
      stock_of db' "p1" = some 2 := by
  obtain ⟨ord, db', heq, hstat, _, htot, _, _, hstk⟩ :=
    create_order_success_spec (sample_db 5) "u1" sample_user rfl rfl "USD"
      (by decide) "p1" 3 10 (by decide) validate_amount_ten
      (sample_product 5) rfl
  refine ⟨ord, db', heq, hstat, by rw [htot]; norm_num,
    by rw [hstk (by decide)]; decide⟩

/-- **C3 (counterexample).** With stock 2 and ordered quantity 3 every
validation step passes and `create_order` succeeds, but the stock is not
decremented by the ordered quantity: it stays 2. -/
theorem create_order_no_decrement_counterexample :
    stock_of (sample_db 2) "p1" = some 2 ∧
    (validate_order_items (sample_db 2)
      [{ product_id := some "p1", quantity := some 3, price := some 10 }]).valid
      = true ∧
    (create_order (sample_db 2) "u1"
      [{ product_id := some "p1", quantity := some 3, price := some 10 }]
      "USD").1.is_err = false ∧
    stock_of (create_order (sample_db 2) "u1"
      [{ product_id := some "p1", quantity := some 3, price := some 10 }]
      "USD").2 "p1" = some 2 ∧
    ¬ (2 : ℤ) = 2 - 3 := by
  have h3 : validate_quantity 3 = true := by decide
  have heval := create_order_single_insufficient (sample_db 2) "u1" sample_user
    rfl rfl "USD" (by decide) "p1" 3 10 h3 validate_amount_ten
    (sample_product 2) rfl (by decide)
  refine ⟨rfl, ?_, ?_, ?_, by decide⟩
  · rw [validate_order_items_valid]
    simp only [item_valid, h3, validate_amount_ten, List.all_cons, List.all_nil,
      Option.getD_some, Bool.and_true, Bool.true_and, List.isEmpty_cons,
      Bool.not_false, Bool.true_and]
    decide
  · rw [heval]
    rfl
  · rw [heval]
    rfl

/-! ## C6: order creation with insufficient stock -/

/-- **C6 (amended).** When the single ordered quantity exceeds the product's
stock (all other inputs valid), `create_order` does NOT fail: it returns the
success response, the order is fully persisted, and the silent reservation
failure leaves the whole product table unchanged. -/
theorem create_order_insufficient_stock (db : DB) (uid : String) (u : User)
    (hu : find_user_by_id db uid = some u) (hact : u.active.getD false = true)
    (cur : String) (hcur : validate_currency cur = true)
    (pid : String) (q : ℤ) (price : ℚ)
    (hq : validate_quantity q = true) (hp : validate_amount price = true)
    (p : Product) (hpp : find_product_by_id db pid = some p)
    (hstock : p.stock.getD 0 < q) :
    ∃ ord db',
      create_order db uid
          [{ product_id := some pid, quantity := some q, price := some price }]
          cur = (format_response ord, db') ∧
      (format_response ord : ApiResult Order).is_err = false ∧
      find_order_by_id db' ord.id = some ord ∧
      db'.products = db.products := by
  refine ⟨single_order db uid pid q price cur, after_record db uid pid q price cur,
    create_order_single_insufficient db uid u hu hact cur hcur pid q price hq hp
      p hpp hstock, rfl, after_record_order db uid pid q price cur,
    after_record_products db uid pid q price cur⟩

/-- Witness for C6: the concrete over-order (stock 2, quantity 3) returns a
success response while the product table is untouched. -/
theorem create_order_insufficient_stock_witness :
    ∃ ord db',
      create_order (sample_db 2) "u1"
          [{ product_id := some "p1", quantity := some 3, price := some 10 }]
          "USD" = (format_response ord, db') ∧
      db'.products = (sample_db 2).products := by
  obtain ⟨ord, db', heq, _, _, hprod⟩ :=
    create_order_insufficient_stock (sample_db 2) "u1" sample_user rfl rfl
      "USD" (by decide) "p1" 3 10 (by decide) validate_amount_ten
      (sample_product 2) rfl (by decide)
  exact ⟨ord, db', heq, hprod⟩

/-- **C6 (counterexample).** The concrete over-order (stock 2, quantity 3,
all other inputs valid) does not produce any error — refuting the claimed
`InsufficientStock` failure — and the order is left fully persisted. -/
theorem create_order_insufficient_counterexample :
    stock_of (sample_db 2) "p1" = some 2 ∧
    (create_order (sample_db 2) "u1"
      [{ product_id := some "p1", quantity := some 3, price := some 10 }]
      "USD").1.is_err = false ∧
    find_order_by_id (create_order (sample_db 2) "u1"
        [{ product_id := some "p1", quantity := some 3, price := some 10 }]
        "USD").2 "ord_0" =
      some (single_order (sample_db 2) "u1" "p1" 3 10 "USD") := by
  have heval := create_order_single_insufficient (sample_db 2) "u1" sample_user
    rfl rfl "USD" (by decide) "p1" 3 10 (by decide) validate_amount_ten
    (sample_product 2) rfl (by decide)
  refine ⟨rfl, by rw [heval]; rfl, ?_⟩
  rw [heval]
  exact after_record_order (sample_db 2) "u1" "p1" 3 10 "USD"

/-! ## C7: `cancel_order` error cases and stock release -/

/-- Total quantity the given items direct toward one product id. -/
def qty_toward (pid : String) (items : List OrderItem) : ℤ :=
  (items.map (fun it => if it.product_id = pid then it.quantity else 0)).sum

/-- Releasing stock item by item adds, to each product present with
non-negative stock, the total quantity its items direct toward it (items
whose product is missing are silently skipped by `update_stock`). -/
theorem release_fold_stock (items : List OrderItem) :
    ∀ db : DB, (∀ it ∈ items, 0 ≤ it.quantity) →
      ∀ pid p, db.products pid = some p → 0 ≤ p.stock.getD 0 →
      ∃ p', (items.foldl
          (fun d it => (update_stock d it.product_id it.quantity).2) db).products
          pid = some p' ∧
        p'.stock.getD 0 = p.stock.getD 0 + qty_toward pid items ∧
        0 ≤ p'.stock.getD 0 := by
  induction items with
  | nil =>
    intro db hq pid p hp hpos
    exact ⟨p, hp, by simp [qty_toward], hpos⟩
  | cons it rest ih =>
    intro db hq pid p hp hpos
    rw [List.foldl_cons]
    by_cases hpid : it.product_id = pid
    · have hq0 : 0 ≤ it.quantity := hq it (List.mem_cons_self it rest)
      have hcommit := update_stock_commit_eq db it.product_id it.quantity p
        (by rw [hpid]; exact hp) (by omega)
      rw [hcommit]
      obtain ⟨p', h1, h2, h3⟩ := ih
        (set_product db it.product_id
          { p with stock := some (p.stock.getD 0 + it.quantity) })
        (fun x hx => hq x (List.mem_cons_of_mem _ hx)) pid
        { p with stock := some (p.stock.getD 0 + it.quantity) }
        (by simp [set_product, hpid]) (by simp; omega)
      refine ⟨p', h1, ?_, h3⟩
      have hsum : qty_toward pid (it :: rest) =
          it.quantity + qty_toward pid rest := by
        simp [qty_toward, hpid]
      rw [h2, hsum]
      simp
      omega
    · obtain ⟨p', h1, h2, h3⟩ := ih (update_stock db it.product_id it.quantity).2
        (fun x hx => hq x (List.mem_cons_of_mem _ hx)) pid p
        (by rw [update_stock_other db it.product_id it.quantity pid
          (Ne.symm hpid)]; exact hp) hpos
      refine ⟨p', h1, ?_, h3⟩
      have hsum : qty_toward pid (it :: rest) = qty_toward pid rest := by
        simp [qty_toward, hpid]
      rw [h2, hsum]

/-- `update_order_status` on a legal transition: commits the status. -/
theorem update_order_status_commit_eq (db : DB) (oid target : String)
    (o : Order) (ho : find_order_by_id db oid = some o)
    (hv : is_valid_status_transition o.status target = true) :
    update_order_status db oid target =
      (some { o with status := target },
       set_order db oid { o with status := target }) := by
  unfold update_order_status
  rw [ho]
  dsimp only
  rw [if_neg (by simp [hv])]

/-- `update_order_status` on an illegal transition: fails, state unchanged. -/
theorem update_order_status_fail_eq (db : DB) (oid target : String)
    (o : Order) (ho : find_order_by_id db oid = some o)
    (hv : is_valid_status_transition o.status target = false) :
    update_order_status db oid target = (none, db) := by
  unfold update_order_status
  rw [ho]
  dsimp only
  rw [if_pos (by simp [hv])]

/-- `cancel_order` when no such order exists. -/
theorem cancel_order_notfound_eval (db : DB) (oid uid : String)
    (ho : find_order_by_id db oid = none) :
    cancel_order db oid uid = (format_error "NOT_FOUND" "Order not found", db) := by
  unfold cancel_order
  rw [ho]

/-- `cancel_order` by a non-owner. -/
theorem cancel_order_forbidden_eval (db : DB) (oid uid : String) (o : Order)
    (ho : find_order_by_id db oid = some o) (huid : o.user_id ≠ uid) :
    cancel_order db oid uid = (format_error "FORBIDDEN" "Not your order", db) := by
  unfold cancel_order
  rw [ho]
  dsimp only
  rw [if_pos huid]

/-- `cancel_order` from a status that does not allow cancellation. -/
theorem cancel_order_invalid_eval (db : DB) (oid uid : String) (o : Order)
    (ho : find_order_by_id db oid = some o) (huid : o.user_id = uid)
    (hv : is_valid_status_transition o.status "cancelled" = false) :
    cancel_order db oid uid =
      (format_error "INVALID_STATE" "Cannot cancel in current state", db) := by
  unfold cancel_order
  rw [ho]
  dsimp only
  rw [if_neg (by simp [huid])]
  rw [update_order_status_fail_eq db oid "cancelled" o ho hv]

/-- `cancel_order` success: the status is committed to `cancelled` and the
order's stock is released item by item. -/
theorem cancel_order_success_eval (db : DB) (oid uid : String) (o : Order)
    (ho : find_order_by_id db oid = some o) (huid : o.user_id = uid)
    (hv : is_valid_status_transition o.status "cancelled" = true) :
    cancel_order db oid uid =
      (format_response { o with status := "cancelled" },
       release_order_stock (set_order db oid { o with status := "cancelled" }) o) := by
  unfold cancel_order
  rw [ho]
  dsimp only
  rw [if_neg (by simp [huid])]
  rw [update_order_status_commit_eq db oid "cancelled" o ho hv]

/-- **C7.** `cancel_order` fails with `NOT_FOUND` when the order is missing,
with `FORBIDDEN` when the caller does not own it, and with an
invalid-transition error (`INVALID_STATE`) when the status does not allow
cancellation; in every failure case the whole state — in particular every
product's stock — is unchanged. On success the response carries the
cancelled order and, for every product present with non-negative stock and
non-negative item quantities, the stock is incremented by the total quantity
the order's items direct toward it (for a product appearing in one item,
that item's quantity). -/
theorem cancel_order_spec (db : DB) (oid uid : String) :
    (find_order_by_id db oid = none →
      cancel_order db oid uid = (format_error "NOT_FOUND" "Order not found", db)) ∧
    (∀ o, find_order_by_id db oid = some o → o.user_id ≠ uid →
      cancel_order db oid uid = (format_error "FORBIDDEN" "Not your order", db)) ∧
    (∀ o, find_order_by_id db oid = some o → o.user_id = uid →
      is_valid_status_transition o.status "cancelled" = false →
      cancel_order db oid uid =
        (format_error "INVALID_STATE" "Cannot cancel in current state", db)) ∧
    (∀ o, find_order_by_id db oid = some o → o.user_id = uid →
      is_valid_status_transition o.status "cancelled" = true →
      (cancel_order db oid uid).1 =
        format_response { o with status := "cancelled" } ∧
      ((∀ it ∈ o.items, 0 ≤ it.quantity) →
        ∀ pid p, db.products pid = some p → 0 ≤ p.stock.getD 0 →
        ∃ p', (cancel_order db oid uid).2.products pid = some p' ∧
          p'.stock.getD 0 = p.stock.getD 0 + qty_toward pid o.items)) := by
  refine ⟨cancel_order_notfound_eval db oid uid,
    fun o ho huid => cancel_order_forbidden_eval db oid uid o ho huid,
    fun o ho huid hv => cancel_order_invalid_eval db oid uid o ho huid hv,
    fun o ho huid hv => ?_⟩
  rw [cancel_order_success_eval db oid uid o ho huid hv]
  refine ⟨rfl, fun hq pid p hp hpos => ?_⟩
  obtain ⟨p', h1, h2, _⟩ := release_fold_stock o.items
    (set_order db oid { o with status := "cancelled" }) hq pid p hp hpos
  exact ⟨p', h1, h2⟩

/-- Witness for C7 at the spec's scenario: an order at status `"shipped"`
cannot be cancelled; the call fails and the state (hence all stock) is
unchanged. -/
theorem cancel_order_spec_witness :
    cancel_order (order_db 5 "shipped") "o1" "u1" =
      (format_error "INVALID_STATE" "Cannot cancel in current state",
       order_db 5 "shipped") :=
  (cancel_order_spec (order_db 5 "shipped") "o1" "u1").2.2.1
    (sample_order "shipped") rfl rfl (by decide)

/-! ## C8: reservation/release round-trip -/

/-- **C8 (amended).** For a validated single-item order whose quantity does
not exceed the product's stock — so that the reservation actually commits —
creating the order and then cancelling it returns the product's stock to
exactly its pre-order value. (The sufficiency hypothesis is forced: when the
reservation fails silently, cancellation still releases the quantity and the
stock ends up HIGHER than before the order.) -/
theorem create_cancel_roundtrip (db : DB) (uid : String) (u : User)
    (hu : find_user_by_id db uid = some u) (hact : u.active.getD false = true)
    (cur : String) (hcur : validate_currency cur = true)
    (pid : String) (q : ℤ) (price : ℚ)
    (hq : validate_quantity q = true) (hp : validate_amount price = true)
    (p : Product) (hpp : find_product_by_id db pid = some p)
    (hstock : q ≤ p.stock.getD 0) :
    ∃ ord db1 res db2,
      create_order db uid
          [{ product_id := some pid, quantity := some q, price := some price }]
          cur = (format_response ord, db1) ∧
      cancel_order db1 ord.id uid = (res, db2) ∧
      res = format_response { ord with status := "cancelled" } ∧
      stock_of db2 pid = stock_of db pid := by
  have hq' : 0 < q ∧ q ≤ 10000 := by simpa [validate_quantity] using hq
  have heval := create_order_single_success db uid u hu hact cur hcur pid q
    price hq hp p hpp hstock
  set so := single_order db uid pid q price cur with hso
  set p1 : Product := { p with stock := some (p.stock.getD 0 - q) } with hp1
  set db1 : DB := set_product (after_record db uid pid q price cur) pid p1
    with hdb1
  have ho1 : find_order_by_id db1 so.id = some so :=
    after_record_order db uid pid q price cur
  have hcancel := cancel_order_success_eval db1 so.id uid so ho1 rfl rfl
  set o' : Order := { so with status := "cancelled" } with ho'
  set db1' : DB := set_order db1 so.id o' with hdb1'
  have hfind1 : find_product_by_id db1' pid = some p1 := by
    simp [hdb1', hdb1, find_product_by_id, set_order, set_product]
  have hrel : release_order_stock db1' so = (update_stock db1' pid q).2 := rfl
  have hup := update_stock_commit_eq db1' pid q p1 hfind1
    (by simp [hp1]; omega)
  refine ⟨so, db1, _, release_order_stock db1' so, heval, hcancel, rfl, ?_⟩
  rw [hrel, hup]
  have hpp' : db.products pid = some p := hpp
  simp [stock_of, set_product, find_product_by_id, hpp', hp1]

/-- Witness for C8 at the spec's scenario: stock 5, order 3 units of `p1`,
then cancel — the stock returns to its pre-order value. -/
theorem create_cancel_roundtrip_witness :
    ∃ ord db1 res db2,
      create_order (sample_db 5) "u1"
          [{ product_id := some "p1", quantity := some 3, price := some 10 }]
          "USD" = (format_response ord, db1) ∧
      cancel_order db1 ord.id "u1" = (res, db2) ∧
      stock_of db2 "p1" = stock_of (sample_db 5) "p1" := by
  obtain ⟨ord, db1, res, db2, h1, h2, _, h4⟩ :=
    create_cancel_roundtrip (sample_db 5) "u1" sample_user rfl rfl "USD"
      (by decide) "p1" 3 10 (by decide) validate_amount_ten
      (sample_product 5) rfl (by decide)
  exact ⟨ord, db1, res, db2, h1, h2, h4⟩

/-- **C8 (counterexample).** With stock 2, creating an order for 3 units
"succeeds" (the silent reservation failure notwithstanding) and cancelling
it also succeeds — but the cancel releases 3 units that were never reserved,
so the stock ends at 5, not at its pre-order value 2. -/
theorem create_cancel_roundtrip_counterexample :
    stock_of (sample_db 2) "p1" = some 2 ∧
    (create_order (sample_db 2) "u1"
      [{ product_id := some "p1", quantity := some 3, price := some 10 }]
      "USD").1.is_err = false ∧
    (cancel_order (create_order (sample_db 2) "u1"
      [{ product_id := some "p1", quantity := some 3, price := some 10 }]
      "USD").2 "ord_0" "u1").1.is_err = false ∧
    stock_of (cancel_order (create_order (sample_db 2) "u1"
      [{ product_id := some "p1", quantity := some 3, price := some 10 }]
      "USD").2 "ord_0" "u1").2 "p1" = some 5 ∧
    ¬ (5 : ℤ) = 2 := by
  have heval := create_order_single_insufficient (sample_db 2) "u1" sample_user
    rfl rfl "USD" (by decide) "p1" 3 10 (by decide) validate_amount_ten
    (sample_product 2) rfl (by decide)
  set so := single_order (sample_db 2) "u1" "p1" 3 10 "USD" with hso
  set ar2 := after_record (sample_db 2) "u1" "p1" 3 10 "USD" with har
  have ho1 : find_order_by_id ar2 "ord_0" = some so :=
    after_record_order (sample_db 2) "u1" "p1" 3 10 "USD"
  have hcancel := cancel_order_success_eval ar2 "ord_0" "u1" so ho1 rfl rfl
  set o' : Order := { so with status := "cancelled" } with ho'
  set ar2' := set_order ar2 "ord_0" o' with har2
  have hfind1 : find_product_by_id ar2' "p1" = some (sample_product 2) := rfl
  have hrel : release_order_stock ar2' so = (update_stock ar2' "p1" 3).2 := rfl
  have hup := update_stock_commit_eq ar2' "p1" 3 (sample_product 2) hfind1
    (by decide)
  refine ⟨rfl, by rw [heval]; rfl, ?_, ?_, by decide⟩
  · rw [heval, hcancel]
    rfl
  · rw [heval, hcancel, hrel, hup]
    simp [stock_of, set_product]
    decide

/-! ## C9: the low-stock reorder alert -/

/-- **C9 (amended).** After a successful reservation through the inventory
service's `reserve_stock`, if the resulting stock is at most 10 a reorder
alert (an email notification from `"system"` about the product) is queued at
priority 1, and otherwise the queue is unchanged; in both cases the
reservation's success payload is returned — queueing is a pure state append
and cannot fail the call. Reservations performed during order creation,
however, go through `reserve_order_stock`, which calls `update_stock`
directly and never emits an alert (see the counterexample). -/
theorem reserve_stock_reorder_alert (db : DB) (pid : String) (q : ℤ)
    (p : Product) (hp : find_product_by_id db pid = some p)
    (havail : q ≤ p.stock.getD 0) :
    (reserve_stock db pid q).1 =
      format_response { reserved := q, remaining := p.stock.getD 0 - q } ∧
    (p.stock.getD 0 - q ≤ 10 →
      ∃ e : QueueEntry,
        (reserve_stock db pid q).2.queue = sort_queue (db.queue ++ [e]) ∧
        e.priority = 1 ∧ e.notif.channel = "email" ∧
        e.notif.user_id = "system" ∧
        e.notif.subject = sanitize_string ("Low stock: " ++ p.name.getD "")) ∧
    (10 < p.stock.getD 0 - q →
      (reserve_stock db pid q).2.queue = db.queue) := by
  have hup := update_stock_commit_eq db pid (-q) p hp (by omega)
  unfold reserve_stock
  rw [if_neg (by simp [availability_ok, check_availability, hp,
    format_response, havail])]
  dsimp only
  rw [hup]
  dsimp only
  set p1 : Product := { p with stock := some (p.stock.getD 0 + -q) } with hp1
  have hfind1 : find_product_by_id (set_product db pid p1) pid = some p1 := by
    simp [find_product_by_id, set_product]
  by_cases hlow : p1.stock.getD 0 ≤ 10
  · have hcrn : check_reorder_needed (set_product db pid p1) pid =
        (true, trigger_reorder_alert (set_product db pid p1) p1) := by
      unfold check_reorder_needed
      rw [hfind1]
      dsimp only
      rw [if_pos hlow]
    rw [hcrn]
    have hlow' : p.stock.getD 0 + -q ≤ 10 := by simpa [hp1] using hlow
    refine ⟨by simp [sub_eq_add_neg], fun _ => ?_, fun hgt => absurd hgt (by omega)⟩
    exact ⟨_, rfl, rfl, rfl, rfl, rfl⟩
  · have hcrn : check_reorder_needed (set_product db pid p1) pid =
        (false, set_product db pid p1) := by
      unfold check_reorder_needed
      rw [hfind1]
      dsimp only
      rw [if_neg hlow]
    rw [hcrn]
    have hlow' : ¬ p.stock.getD 0 + -q ≤ 10 := by simpa [hp1] using hlow
    exact ⟨by simp [sub_eq_add_neg], fun hle => absurd hle (by omega),
      fun _ => rfl⟩

/-- Witness for C9 at a concrete state: reserving 3 of 5 units through
`reserve_stock` succeeds, and the remaining stock 2 triggers exactly one
queued priority-1 alert. -/
theorem reserve_stock_reorder_alert_witness :
    (reserve_stock (sample_db 5) "p1" 3).1 =
      format_response { reserved := 3, remaining := 2 } ∧
    ∃ e : QueueEntry,
      (reserve_stock (sample_db 5) "p1" 3).2.queue =
        sort_queue ((sample_db 5).queue ++ [e]) ∧ e.priority = 1 := by
  obtain ⟨h1, h2, _⟩ := reserve_stock_reorder_alert (sample_db 5) "p1" 3
    (sample_product 5) rfl (by decide)
  obtain ⟨e, he1, he2, _⟩ := h2 (by decide)
  exact ⟨by rw [h1]; decide, e, he1, he2⟩

/-- **C9 (counterexample).** A successful stock reservation performed during
order creation (stock 5, quantity 3: the resulting stock 2 is at most 10)
queues NO reorder alert: the queue stays empty, because
`reserve_order_stock` calls `update_stock` directly and never runs
`check_reorder_needed`. -/
theorem create_order_no_alert_counterexample :
    (sample_db 5).queue = [] ∧
    (create_order (sample_db 5) "u1"
      [{ product_id := some "p1", quantity := some 3, price := some 10 }]
      "USD").1.is_err = false ∧
    stock_of (create_order (sample_db 5) "u1"
      [{ product_id := some "p1", quantity := some 3, price := some 10 }]
      "USD").2 "p1" = some 2 ∧
    (create_order (sample_db 5) "u1"
      [{ product_id := some "p1", quantity := some 3, price := some 10 }]
      "USD").2.queue = [] := by
  have heval := create_order_single_success (sample_db 5) "u1" sample_user rfl
    rfl "USD" (by decide) "p1" 3 10 (by decide) validate_amount_ten
    (sample_product 5) rfl (by decide)
  refine ⟨rfl, by rw [heval]; rfl, ?_, by rw [heval]; rfl⟩
  rw [heval]
  simp [stock_of, set_product]
  decide

end Shop
